import Mathlib

/-!
A shallow embedding of the gophertalk-fastapi backend (user directory,
post store, feed query, authentication/token lifecycle), translated from
the repository sources:

* `src/gophertalk_fastapi/repository/user_repository.py`
* `src/gophertalk_fastapi/repository/post_repository.py`
* `src/gophertalk_fastapi/service/auth_service.py`
* `src/gophertalk_fastapi/service/user_service.py`
* `src/gophertalk_fastapi/dependencies/auth.py`
* `src/gophertalk_fastapi/models/{user,post,auth}.py`
* `src/gophertalk_fastapi/config/config.py`

The relational store (PostgreSQL) is embedded as explicit lists of rows;
timestamps are naturals; SQL queries become pure functions over the row
lists, and nondeterminism of an `ORDER BY`-free `SELECT` is kept as a
relation on admissible results.  `bcrypt` and JWT signing are idealised:
a hash records the hashed plaintext and the salt, a signed token records
its claims together with the signing secret and algorithm, and signature
verification succeeds exactly when secret and algorithm match.
-/

namespace GopherTalk

/-- Decidable equality on `Except`, so that concrete runs of the fallible
operations can be checked by evaluation. -/
instance {ε α : Type} [DecidableEq ε] [DecidableEq α] : DecidableEq (Except ε α) :=
  fun x y =>
    match x, y with
    | .ok a, .ok b =>
        if h : a = b then .isTrue (by rw [h]) else .isFalse (by simp [h])
    | .error a, .error b =>
        if h : a = b then .isTrue (by rw [h]) else .isFalse (by simp [h])
    | .ok _, .error _ => .isFalse (by simp)
    | .error _, .ok _ => .isFalse (by simp)

/-! ## Idealised bcrypt (`bcrypt.hashpw` / `bcrypt.checkpw`) -/

/-- Idealised bcrypt digest: `bcrypt.hashpw(password, salt)` is modelled as a
record of the hashed plaintext and the salt, so that distinct salts give
distinct digests and verification is exact plaintext comparison. -/
structure BHash where
  plain : String
  salt : Nat
deriving DecidableEq, Repr

/-- Model of `bcrypt.hashpw(password.encode(), salt)`. -/
def hashpw (password : String) (salt : Nat) : BHash :=
  { plain := password, salt := salt }

/-- Model of `bcrypt.checkpw(password.encode(), hash.encode())`. -/
def checkpw (password : String) (hash : BHash) : Bool :=
  password == hash.plain

/-! ## Database rows (tables `users`, `posts`, `likes`, `views`) -/

/-- Row of the `users` table.  `deleted_at = none` means the user is live
(`deleted_at IS NULL`). -/
structure UserRow where
  id : Nat
  user_name : String
  first_name : String
  last_name : String
  password_hash : BHash
  status : Nat
  created_at : Nat
  updated_at : Nat
  deleted_at : Option Nat
deriving DecidableEq, Repr

/-- Row of the `posts` table.  `reply_to_id = none` means a top-level post;
`deleted_at = none` means the post is live. -/
structure PostRow where
  id : Nat
  text : String
  user_id : Nat
  reply_to_id : Option Nat
  created_at : Nat
  deleted_at : Option Nat
deriving DecidableEq, Repr

/-- The relational store: the four tables touched by the repositories.
`likes` and `views` are edge tables of `(post_id, user_id)` pairs. -/
structure Store where
  users : List UserRow
  posts : List PostRow
  likes : List (Nat × Nat)
  views : List (Nat × Nat)
deriving DecidableEq, Repr

/-! ## Error taxonomy (exception classes of the repositories/services) -/

/-- Errors raised by `PostRepository`: `PostNotFoundError`,
`PostAlreadyViewedError`, `PostAlreadyLikedError`,
`ReplyToPostDoesNotExistsError`, and the catch-all `PostRepositoryError`
(which also covers the `ForeignKeyViolation` path "User or post not found"). -/
inductive PostError where
  | notFound
  | alreadyViewed
  | alreadyLiked
  | replyToMissing
  | repositoryError
deriving DecidableEq, Repr

/-- Errors raised by `UserRepository`: `UserNotFoundError`,
`UserAlreadyExistsError`, `UserRepositoryError`. -/
inductive UserError where
  | notFound
  | alreadyExists
  | repositoryError
deriving DecidableEq, Repr

/-- Errors surfaced by `AuthService.login`: the repository's `UserError`
propagates unchanged, and a failed `bcrypt.checkpw` raises
`WrongPasswordError`. -/
inductive LoginError where
  | userError (e : UserError)
  | wrongPassword
deriving DecidableEq, Repr

/-- The 401 variants of `dependencies/auth.py`: "Missing token",
"Invalid token", "Wrong token type". -/
inductive TokenError where
  | missingToken
  | invalidToken
  | wrongTokenType
deriving DecidableEq, Repr

/-! ## DTOs (`models/user.py`, `models/post.py`, `models/auth.py`) -/

/-- `ReadUserDto` from `models/user.py`. -/
structure ReadUserDto where
  id : Nat
  user_name : String
  first_name : String
  last_name : String
  status : Nat
  created_at : Nat
  updated_at : Nat
deriving DecidableEq, Repr

/-- `ReadAuthUserDataDto` from `models/user.py`. -/
structure ReadAuthUserDataDto where
  id : Nat
  user_name : String
  password_hash : BHash
  status : Nat
deriving DecidableEq, Repr

/-- `UpdateUserDto` from `models/user.py` (all fields optional). -/
structure UpdateUserDto where
  user_name : Option String := none
  first_name : Option String := none
  last_name : Option String := none
  password : Option String := none
  password_confirm : Option String := none
  password_hash : Option BHash := none
deriving DecidableEq, Repr

/-- `LoginUserDto` from `models/auth.py`. -/
structure LoginUserDto where
  user_name : String
  password : String
deriving DecidableEq, Repr

/-- `FilterPostDto` from `models/post.py`: filters for the feed query.
`user_id` is the requesting viewer (used for the liked/viewed flags). -/
structure FilterPostDto where
  search : Option String := none
  owner_id : Option Nat := none
  user_id : Option Nat := none
  reply_to_id : Option Nat := none
  limit : Option Nat := none
  offset : Option Nat := none
deriving DecidableEq, Repr

/-- `ReadPostUserDto` from `models/post.py`. -/
structure ReadPostUserDto where
  id : Nat
  user_name : String
  first_name : String
  last_name : String
deriving DecidableEq, Repr

/-- `ReadPostDto` exactly as declared in `models/post.py` (lines 33-42):
its declared fields are `id`, `text`, `user_id`, `reply_to_id`,
`created_at`, `likes_count`, `views_count` and `user` - it declares no
`replies_count`, `user_liked` or `user_viewed` field. -/
structure ReadPostDto where
  id : Nat
  text : String
  user_id : Nat
  reply_to_id : Option Nat
  created_at : Nat
  likes_count : Option Nat := none
  views_count : Option Nat := none
  user : Option ReadPostUserDto := none
deriving DecidableEq, Repr

/-! ## User repository (`repository/user_repository.py`) -/

/-- Projection of a `users` row onto `ReadUserDto`
(the `SELECT id, user_name, ... , updated_at` column list). -/
def readUserDtoOf (u : UserRow) : ReadUserDto :=
  { id := u.id, user_name := u.user_name, first_name := u.first_name,
    last_name := u.last_name, status := u.status,
    created_at := u.created_at, updated_at := u.updated_at }

/-- Live (not soft-deleted) users: `WHERE deleted_at IS NULL`. -/
def liveUsers (st : Store) : List UserRow :=
  st.users.filter (fun u => u.deleted_at == none)

/-- Semantics of `UserRepository.get_all_users`: the SQL is
`SELECT ... FROM users WHERE deleted_at IS NULL OFFSET %s LIMIT %s` with
no `ORDER BY`, so the engine may enumerate the live rows in any order; a
result is admissible exactly when it is the `(offset, limit)` page of
some enumeration order of the live rows. -/
def get_all_users_result (st : Store) (limit offset : Nat)
    (res : List ReadUserDto) : Prop :=
  ∃ l : List UserRow, l.Perm (liveUsers st) ∧
    res = ((l.drop offset).take limit).map readUserDtoOf

/-- `UserRepository.get_user_by_username`: first live row matching the
username (`WHERE user_name = %s AND deleted_at IS NULL`), else
`UserNotFoundError`. -/
def get_user_by_username (st : Store) (user_name : String) :
    Except UserError ReadAuthUserDataDto :=
  match st.users.find? (fun u => u.user_name == user_name && u.deleted_at == none) with
  | none => .error .notFound
  | some u => .ok { id := u.id, user_name := u.user_name,
                    password_hash := u.password_hash, status := u.status }

/-- The `SET` clause of `UserRepository.update_user` applied to one row:
each supplied field overwrites the stored one, and `updated_at = NOW()`. -/
def applySetClause (dto : UpdateUserDto) (now : Nat) (u : UserRow) : UserRow :=
  { u with
    password_hash := dto.password_hash.getD u.password_hash,
    user_name := dto.user_name.getD u.user_name,
    first_name := dto.first_name.getD u.first_name,
    last_name := dto.last_name.getD u.last_name,
    updated_at := now }

/-- `UserRepository.update_user`: `UPDATE users SET ... WHERE id = %s AND
deleted_at IS NULL RETURNING ...`; a fetch of no row raises
`UserNotFoundError`. -/
def update_user (st : Store) (user_id : Nat) (dto : UpdateUserDto) (now : Nat) :
    Except UserError (Store × ReadUserDto) :=
  match st.users.find? (fun u => u.id == user_id && u.deleted_at == none) with
  | none => .error .notFound
  | some u =>
      .ok ({ st with users := st.users.map (fun w =>
               if w.id == user_id && w.deleted_at == none then
                 applySetClause dto now w
               else w) },
           readUserDtoOf (applySetClause dto now u))

/-! ## User service (`service/user_service.py`) -/

/-- The password-hashing substitution at the start of `UserService.update`:
when a plaintext password is supplied, `password_hash` is set to the bcrypt
digest and the plaintext fields `password` and `password_confirm` are
cleared before delegation. -/
def prepareUpdate (dto : UpdateUserDto) (salt : Nat) : UpdateUserDto :=
  match dto.password with
  | some p => { dto with password_hash := some (hashpw p salt),
                         password := none, password_confirm := none }
  | none => dto

/-- `UserService.update`: hash-and-clear, then delegate to
`UserRepository.update_user`. -/
def user_service_update (st : Store) (user_id : Nat) (dto : UpdateUserDto)
    (salt now : Nat) : Except UserError (Store × ReadUserDto) :=
  update_user st user_id (prepareUpdate dto salt) now

/-! ## Token manager (`service/auth_service.py`, `dependencies/auth.py`,
`config/config.py`) -/

/-- Token-relevant part of `Config` (`config/config.py`). -/
structure Config where
  access_token_expires : Nat
  refresh_token_expires : Nat
  access_token_secret : String
  refresh_token_secret : String
  hash_algorithm : String
deriving DecidableEq, Repr

/-- Claim set put into a JWT by `AuthService.generate_token_pair`:
`sub`, `exp` and `type` (here `typ`). -/
structure JwtClaims where
  sub : String
  exp : Nat
  typ : String
deriving DecidableEq, Repr

/-- Idealised signed JWT: `jose.jwt.encode(claims, secret, algorithm)` is
modelled as the claims together with the signing secret and algorithm;
verification succeeds exactly when both match the verifier's. -/
structure Jwt where
  claims : JwtClaims
  secret : String
  alg : String
deriving DecidableEq, Repr

/-- Model of `jose.jwt.encode`. -/
def jwtEncode (claims : JwtClaims) (secret alg : String) : Jwt :=
  { claims := claims, secret := secret, alg := alg }

/-- Model of `jose.jwt.decode(token, secret, algorithms=[alg])` at time
`now`: fails (with `JWTError`, which includes expiry) unless the token was
signed with the same secret and algorithm and has not expired. -/
def jwtDecode (tok : Jwt) (secret alg : String) (now : Nat) :
    Except Unit JwtClaims :=
  if tok.secret == secret && tok.alg == alg && now < tok.claims.exp then
    .ok tok.claims
  else
    .error ()

/-- `ReadTokenDto` from `models/auth.py`. -/
structure ReadTokenDto where
  access_token : Jwt
  refresh_token : Jwt
deriving DecidableEq, Repr

/-- Modelled from the spec: `TokenPayload` is imported by
`dependencies/auth.py` from `models/auth.py`, but no definition of it
appears anywhere under the source tree; per the spec the successful
validation result "yields the decoded subject (user id) for downstream
authorization". -/
structure TokenPayload where
  sub : String
deriving DecidableEq, Repr

/-- `AuthService.generate_token_pair`: the access token carries
`type = "access"`, expiry `now + access_token_expires` and is signed with
`access_token_secret`; the refresh token carries `type = "refresh"`,
expiry `now + refresh_token_expires` and is signed with
`refresh_token_secret`. -/
def generate_token_pair (cfg : Config) (user_id : Nat) (now : Nat) : ReadTokenDto :=
  { access_token :=
      jwtEncode { sub := toString user_id,
                  exp := now + cfg.access_token_expires,
                  typ := "access" }
        cfg.access_token_secret cfg.hash_algorithm,
    refresh_token :=
      jwtEncode { sub := toString user_id,
                  exp := now + cfg.refresh_token_expires,
                  typ := "refresh" }
        cfg.refresh_token_secret cfg.hash_algorithm }

/-- `get_current_user` from `dependencies/auth.py`.  The `Authorization`
header is modelled as an optional pair of the scheme word and the token
("Bearer <token>"); as in the source, the token is always decoded with
`cfg.access_token_secret`, whatever `token_type` is expected, and the
`type` claim is compared with `token_type` afterwards. -/
def get_current_user (cfg : Config) (token_type : String)
    (header : Option (String × Jwt)) (now : Nat) :
    Except TokenError TokenPayload :=
  match header with
  | none => .error .missingToken
  | some (scheme, tok) =>
    if scheme != "Bearer" then .error .missingToken
    else
      match jwtDecode tok cfg.access_token_secret cfg.hash_algorithm now with
      | .error _ => .error .invalidToken
      | .ok claims =>
        if claims.typ != token_type then .error .wrongTokenType
        else .ok { sub := claims.sub }

/-- `AuthService.login`: look the user up by username (propagating the
repository error), then check the password with bcrypt, then issue the
token pair. -/
def login (st : Store) (cfg : Config) (dto : LoginUserDto) (now : Nat) :
    Except LoginError ReadTokenDto :=
  match get_user_by_username st dto.user_name with
  | .error e => .error (.userError e)
  | .ok user =>
    if !(checkpw dto.password user.password_hash) then .error .wrongPassword
    else .ok (generate_token_pair cfg user.id now)

/-! ## Post repository (`repository/post_repository.py`) -/

/-- Case-insensitive prefix test on character lists (helper for `ILIKE`). -/
def matchesAt : List Char → List Char → Bool
  | [], _ => true
  | _ :: _, [] => false
  | p :: ps, t :: ts => p == t && matchesAt ps ts

/-- Case-insensitive substring containment on character lists. -/
def containsSeq (pat : List Char) : List Char → Bool
  | [] => matchesAt pat []
  | t :: ts => matchesAt pat (t :: ts) || containsSeq pat ts

/-- Model of `p.text ILIKE '%search%'`: case-insensitive substring match. -/
def searchMatches (text pattern : String) : Bool :=
  containsSeq (pattern.data.map Char.toLower) (text.data.map Char.toLower)

/-- `likes_count` CTE at one post: `SELECT COUNT(*) FROM likes` grouped by
`post_id`, `COALESCE`d to 0 - counts every like edge of the post. -/
def likesCount (st : Store) (post_id : Nat) : Nat :=
  (st.likes.filter (fun e => e.1 == post_id)).length

/-- `views_count` CTE at one post: counts every view edge of the post. -/
def viewsCount (st : Store) (post_id : Nat) : Nat :=
  (st.views.filter (fun e => e.1 == post_id)).length

/-- `replies_count` CTE at one post: counts every row of `posts` whose
`reply_to_id` is this post (no liveness filter in the CTE). -/
def repliesCount (st : Store) (post_id : Nat) : Nat :=
  (st.posts.filter (fun q => q.reply_to_id == some post_id)).length

/-- `user_liked` flag: the `LEFT JOIN likes l ON l.post_id = p.id AND
l.user_id = %s` produced a row; a `NULL` viewer matches nothing. -/
def userLiked (st : Store) (post_id : Nat) (viewer : Option Nat) : Bool :=
  match viewer with
  | some v => st.likes.contains (post_id, v)
  | none => false

/-- `user_viewed` flag, analogous to `userLiked` over `views`. -/
def userViewed (st : Store) (post_id : Nat) (viewer : Option Nat) : Bool :=
  match viewer with
  | some v => st.views.contains (post_id, v)
  | none => false

/-- One result row of the feed `SELECT` column list: post columns, author
columns, the three zero-defaulted aggregates, and the two viewer flags. -/
structure FeedRow where
  id : Nat
  text : String
  reply_to_id : Option Nat
  created_at : Nat
  user_id : Nat
  user_name : String
  first_name : String
  last_name : String
  likes_count : Nat
  views_count : Nat
  replies_count : Nat
  user_liked : Bool
  user_viewed : Bool
deriving DecidableEq, Repr

/-- Builds the feed `SELECT` row for post `p` joined with its author `u`. -/
def feedRowOf (st : Store) (viewer : Option Nat) (p : PostRow) (u : UserRow) :
    FeedRow :=
  { id := p.id, text := p.text, reply_to_id := p.reply_to_id,
    created_at := p.created_at,
    user_id := u.id, user_name := u.user_name,
    first_name := u.first_name, last_name := u.last_name,
    likes_count := likesCount st p.id,
    views_count := viewsCount st p.id,
    replies_count := repliesCount st p.id,
    user_liked := userLiked st p.id viewer,
    user_viewed := userViewed st p.id viewer }

/-- The `WHERE` clause assembled by `PostRepository.get_all_posts`
(lines 167-182): base liveness, optional `ILIKE` search, optional owner
restriction, and the mutually exclusive threading branch. -/
def feedWhere (dto : FilterPostDto) (p : PostRow) : Bool :=
  p.deleted_at == none
  && (match dto.search with
      | some s => searchMatches p.text s
      | none => true)
  && (match dto.owner_id with
      | some o => p.user_id == o
      | none => true)
  && (match dto.reply_to_id with
      | some r => p.reply_to_id == some r
      | none => p.reply_to_id == none)

/-- The `FROM posts JOIN users` / `WHERE` stage of
`PostRepository.get_all_posts`: each post passing the filter is
inner-joined with its author row to build the `SELECT` row. -/
def feedJoined (st : Store) (dto : FilterPostDto) : List FeedRow :=
  st.posts.filterMap (fun p =>
    if feedWhere dto p then
      (st.users.find? (fun u => u.id == p.user_id)).map (feedRowOf st dto.user_id p)
    else none)

/-- The `ORDER BY` stage of `PostRepository.get_all_posts`: ascending by
`created_at` in the reply branch, descending in the top-level branch. -/
def feedSorted (st : Store) (dto : FilterPostDto) : List FeedRow :=
  match dto.reply_to_id with
  | some _ =>
      List.insertionSort (fun a b : FeedRow => a.created_at ≤ b.created_at)
        (feedJoined st dto)
  | none =>
      List.insertionSort (fun a b : FeedRow => b.created_at ≤ a.created_at)
        (feedJoined st dto)

/-- The full result of `PostRepository.get_all_posts`'s query: the joined,
filtered, ordered rows, `OFFSET`/`LIMIT` paged (a `NULL` offset or limit
is ignored). -/
def getAllPostsRows (st : Store) (dto : FilterPostDto) : List FeedRow :=
  let offsetted := (feedSorted st dto).drop (dto.offset.getD 0)
  match dto.limit with
  | some n => offsetted.take n
  | none => offsetted

/-- The repository's construction of `ReadPostDto` from a result row.
`ReadPostDto` declares no `replies_count`, `user_liked` or `user_viewed`
field, so only the declared fields survive the constructor call and the
three undeclared keyword arguments are lost. -/
def readPostDtoOfRow (row : FeedRow) : ReadPostDto :=
  { id := row.id, text := row.text, user_id := row.user_id,
    reply_to_id := row.reply_to_id, created_at := row.created_at,
    likes_count := some row.likes_count,
    views_count := some row.views_count,
    user := some { id := row.user_id, user_name := row.user_name,
                   first_name := row.first_name, last_name := row.last_name } }

/-- `PostRepository.get_all_posts`: the query result mapped onto
`ReadPostDto`. -/
def get_all_posts (st : Store) (dto : FilterPostDto) : List ReadPostDto :=
  (getAllPostsRows st dto).map readPostDtoOfRow

/-- The single-row query of `PostRepository.get_post_by_id`
(`WHERE p.id = %s AND p.deleted_at IS NULL`, joined with the author). -/
def getPostByIdRow (st : Store) (post_id user_id : Nat) : Option FeedRow :=
  match st.posts.find? (fun p => p.id == post_id && p.deleted_at == none) with
  | none => none
  | some p =>
      (st.users.find? (fun u => u.id == p.user_id)).map
        (feedRowOf st (some user_id) p)

/-- `PostRepository.get_post_by_id`: `PostNotFoundError` when the fetch
returns no row, else the `ReadPostDto` built from it. -/
def get_post_by_id (st : Store) (post_id user_id : Nat) :
    Except PostError ReadPostDto :=
  match getPostByIdRow st post_id user_id with
  | none => .error .notFound
  | some row => .ok (readPostDtoOfRow row)

/-- The row transformation of `PostRepository.delete_post`'s `UPDATE`: a
row matching `id = %s AND user_id = %s AND deleted_at IS NULL` gets
`deleted_at = NOW()`, any other row is untouched. -/
def softDeleteMark (post_id owner_id now : Nat) (p : PostRow) : PostRow :=
  if p.id == post_id && p.user_id == owner_id && p.deleted_at == none then
    { p with deleted_at := some now }
  else p

/-- `PostRepository.delete_post`: the owner-scoped soft-delete `UPDATE`;
a rowcount of 0 raises `PostNotFoundError`. -/
def delete_post (st : Store) (post_id owner_id now : Nat) :
    Except PostError Store :=
  let matched := st.posts.filter
    (fun p => p.id == post_id && p.user_id == owner_id && p.deleted_at == none)
  if matched.length == 0 then .error .notFound
  else .ok { st with posts := st.posts.map (softDeleteMark post_id owner_id now) }

/-- `PostRepository.view_post`: `INSERT INTO views (post_id, user_id)`.
A duplicate `(post, user)` pair violates the table's primary key
(`pk__views`) and raises `PostAlreadyViewedError`; a missing referenced
post or user row violates a foreign key and raises the repository error
"User or post not found".  (The source's `rowcount == 0` branch after a
successful single-row insert is unreachable.) -/
def view_post (st : Store) (post_id user_id : Nat) : Except PostError Store :=
  if st.views.contains (post_id, user_id) then .error .alreadyViewed
  else if ((st.posts.find? (fun p => p.id == post_id)).isNone
        || (st.users.find? (fun u => u.id == user_id)).isNone) then
    .error .repositoryError
  else .ok { st with views := st.views ++ [(post_id, user_id)] }

/-- `PostRepository.like_post`: `INSERT INTO likes (post_id, user_id)`.
A duplicate pair violates `pk__likes` and raises `PostAlreadyLikedError`;
a missing referenced post or user row raises the repository error
"User or post not found". -/
def like_post (st : Store) (post_id user_id : Nat) : Except PostError Store :=
  if st.likes.contains (post_id, user_id) then .error .alreadyLiked
  else if ((st.posts.find? (fun p => p.id == post_id)).isNone
        || (st.users.find? (fun u => u.id == user_id)).isNone) then
    .error .repositoryError
  else .ok { st with likes := st.likes ++ [(post_id, user_id)] }

/-- `PostRepository.dislike_post`: `DELETE FROM likes WHERE post_id = %s
AND user_id = %s` - deleting zero rows is not an error. -/
def dislike_post (st : Store) (post_id user_id : Nat) : Except PostError Store :=
  .ok { st with likes := st.likes.filter (fun e => !(e.1 == post_id && e.2 == user_id)) }

/-- Soft-deletes (at time `t`) every post whose id is listed in `S`,
leaving all other rows and tables unchanged. -/
def markPostsDeleted (st : Store) (S : List Nat) (t : Nat) : Store :=
  { st with posts := st.posts.map (fun p =>
      if S.contains p.id then { p with deleted_at := some t } else p) }

/-- Soft-deletes (at time `t`) every user whose id is listed in `S`,
leaving all other rows and tables unchanged. -/
def markUsersDeleted (st : Store) (S : List Nat) (t : Nat) : Store :=
  { st with users := st.users.map (fun u =>
      if S.contains u.id then { u with deleted_at := some t } else u) }

/-! ## Concrete datasets used as witnesses and counterexamples -/

/-- A live author (user 1). -/
def exAuthor : UserRow :=
  { id := 1, user_name := "author", first_name := "Ann", last_name := "Lee",
    password_hash := hashpw "pw1!a" 0, status := 1,
    created_at := 0, updated_at := 0, deleted_at := none }

/-- Post A: top-level, created at t1 = 1. -/
def exPostA : PostRow :=
  { id := 1, text := "post A", user_id := 1, reply_to_id := none,
    created_at := 1, deleted_at := none }

/-- Post B: top-level, created at t2 = 2. -/
def exPostB : PostRow :=
  { id := 2, text := "post B", user_id := 1, reply_to_id := none,
    created_at := 2, deleted_at := none }

/-- Post C: reply to A, created at t3 = 3. -/
def exPostC : PostRow :=
  { id := 3, text := "post C", user_id := 1, reply_to_id := some 1,
    created_at := 3, deleted_at := none }

/-- The spec's three-post example dataset. -/
def exFeedStore : Store :=
  { users := [exAuthor], posts := [exPostA, exPostB, exPostC],
    likes := [], views := [] }

/-- Top-level feed query by viewer 9. -/
def exTopDto : FilterPostDto :=
  { user_id := some 9, limit := some 10, offset := some 0 }

/-- Top-level feed query by viewer 9 with no offset or limit. -/
def exTopAllDto : FilterPostDto :=
  { user_id := some 9 }

/-- Reply-thread query for parent A by viewer 9. -/
def exReplyDto : FilterPostDto :=
  { user_id := some 9, reply_to_id := some 1, limit := some 10, offset := some 0 }

/-- One live post; viewer 2 has liked it. -/
def exC2Liked : Store :=
  { users := [exAuthor], posts := [exPostA], likes := [(1, 2)], views := [] }

/-- One live post; some other user 9 (not viewer 2) has liked it. -/
def exC2Other : Store :=
  { users := [exAuthor], posts := [exPostA], likes := [(1, 9)], views := [] }

/-- Feed query by viewer 2 over the single-post datasets. -/
def exC2Dto : FilterPostDto :=
  { user_id := some 2, limit := some 10, offset := some 0 }

/-- Like `exC2Liked`, plus a soft-deleted reply (post 3) to post 1. -/
def exC2Reply : Store :=
  { users := [exAuthor],
    posts := [exPostA,
              { id := 3, text := "reply", user_id := 1, reply_to_id := some 1,
                created_at := 3, deleted_at := some 4 }],
    likes := [(1, 2)], views := [] }

/-- A configuration with distinct access and refresh secrets and distinct
expiry durations. -/
def exCfg : Config :=
  { access_token_expires := 3600, refresh_token_expires := 86400,
    access_token_secret := "access-secret",
    refresh_token_secret := "refresh-secret",
    hash_algorithm := "HS256" }

/-- The token pair issued to user 1 at time 0 under `exCfg`. -/
def exPair : ReadTokenDto := generate_token_pair exCfg 1 0

/-- User 1's live post (delete dataset). -/
def exDelMine : PostRow :=
  { id := 1, text := "mine", user_id := 1, reply_to_id := none,
    created_at := 1, deleted_at := none }

/-- User 2's live post (delete dataset). -/
def exDelTheirs : PostRow :=
  { id := 2, text := "theirs", user_id := 2, reply_to_id := none,
    created_at := 2, deleted_at := none }

/-- User 1's already soft-deleted post (delete dataset). -/
def exDelGone : PostRow :=
  { id := 3, text := "gone", user_id := 1, reply_to_id := none,
    created_at := 3, deleted_at := some 4 }

/-- Dataset for the delete claims: user 1 owns live post 1 and soft-deleted
post 3; post 2 belongs to user 2. -/
def exDelStore : Store :=
  { users := [exAuthor], posts := [exDelMine, exDelTheirs, exDelGone],
    likes := [], views := [] }

/-- Dataset for the interaction claims: post 1 exists but is soft-deleted,
user 2 is live, and no interaction edges exist yet. -/
def exLikeStore : Store :=
  { users := [{ id := 2, user_name := "bobby", first_name := "Bo",
                last_name := "Bee", password_hash := hashpw "pw2!b" 1,
                status := 1, created_at := 0, updated_at := 0,
                deleted_at := none }],
    posts := [{ id := 1, text := "old", user_id := 2, reply_to_id := none,
                created_at := 1, deleted_at := some 5 }],
    likes := [], views := [] }

/-- The live user `alice` of the login dataset. -/
def exAlice : UserRow :=
  { id := 1, user_name := "alice", first_name := "Al", last_name := "Ice",
    password_hash := hashpw "pw1!a" 3, status := 1, created_at := 0,
    updated_at := 0, deleted_at := none }

/-- Dataset for the login claim: a single live user `alice`. -/
def exLoginStore : Store :=
  { users := [exAlice], posts := [], likes := [], views := [] }

/-- An update that supplies a new password (with matching confirmation). -/
def exUpdDto : UpdateUserDto :=
  { user_name := some "newname", password := some "newpw1!",
    password_confirm := some "newpw1!" }

/-- Two live users for the user-listing claim. -/
def exU1 : UserRow :=
  { id := 1, user_name := "user1", first_name := "Fay", last_name := "One",
    password_hash := hashpw "a" 0, status := 1, created_at := 0,
    updated_at := 0, deleted_at := none }

/-- Second live user for the user-listing claim. -/
def exU2 : UserRow :=
  { id := 2, user_name := "user2", first_name := "Gil", last_name := "Two",
    password_hash := hashpw "b" 0, status := 1, created_at := 0,
    updated_at := 0, deleted_at := none }

/-- A store holding the two live users (and a soft-deleted third). -/
def exUsersStore : Store :=
  { users := [exU1, exU2,
              { id := 3, user_name := "user3", first_name := "Hal",
                last_name := "Tri", password_hash := hashpw "c" 0,
                status := 1, created_at := 0, updated_at := 0,
                deleted_at := some 7 }],
    posts := [], likes := [], views := [] }


/-! ## Helper lemmas -/

theorem contains_eq_true_of_mem {l : List (Nat × Nat)} {a : Nat × Nat}
    (h : a ∈ l) : l.contains a = true := by
  simpa [List.contains, List.elem_iff] using h

theorem contains_eq_false_of_not_mem {l : List (Nat × Nat)} {a : Nat × Nat}
    (h : a ∉ l) : l.contains a = false := by
  simp only [List.contains]
  rw [Bool.eq_false_iff]
  intro hc
  exact h (List.elem_iff.mp hc)

theorem posts_find_eq_none_iff (st : Store) (pid : Nat) :
    st.posts.find? (fun p => p.id == pid) = none ↔ ¬ ∃ p ∈ st.posts, p.id = pid := by
  rw [List.find?_eq_none]
  constructor
  · rintro h ⟨p, hp, hpe⟩
    exact h p hp (by simp [hpe])
  · intro h p hp hbeq
    exact h ⟨p, hp, by simpa using hbeq⟩

theorem users_find_eq_none_iff (st : Store) (uid : Nat) :
    st.users.find? (fun u => u.id == uid) = none ↔ ¬ ∃ u ∈ st.users, u.id = uid := by
  rw [List.find?_eq_none]
  constructor
  · rintro h ⟨u, hu, hue⟩
    exact h u hu (by simp [hue])
  · intro h u hu hbeq
    exact h ⟨u, hu, by simpa using hbeq⟩

/-! ## Claim theorems -/

/-- C2 (code evaluated at the failing input): the feed query rows do carry
`user_liked` and `replies_count` (computed over the likes and posts
relations), but the `ReadPostDto` rows that `get_post_by_id` returns do
not: two stores whose like relations give the viewer a different
`user_liked` flag, and two stores with a different reply count, produce
identical returned DTOs, because `ReadPostDto` declares no
`replies_count`, `user_liked` or `user_viewed` field. -/
theorem C2_returned_rows_lack_flag_fields :
    (getPostByIdRow exC2Liked 1 2).map (fun r => r.user_liked) = some true ∧
    (getPostByIdRow exC2Other 1 2).map (fun r => r.user_liked) = some false ∧
    (1, 2) ∈ exC2Liked.likes ∧ (1, 2) ∉ exC2Other.likes ∧
    get_post_by_id exC2Liked 1 2 = get_post_by_id exC2Other 1 2 ∧
    (getAllPostsRows exC2Liked exC2Dto).map (fun r => r.user_liked) = [true] ∧
    (getAllPostsRows exC2Other exC2Dto).map (fun r => r.user_liked) = [false] ∧
    get_all_posts exC2Liked exC2Dto = get_all_posts exC2Other exC2Dto ∧
    (getPostByIdRow exC2Reply 1 2).map (fun r => r.replies_count) = some 1 ∧
    (getPostByIdRow exC2Liked 1 2).map (fun r => r.replies_count) = some 0 ∧
    get_post_by_id exC2Reply 1 2 = get_post_by_id exC2Liked 1 2 := by
  decide

/-- C3 (code evaluated at the failing input): under a configuration with
distinct access/refresh secrets and expiry durations, the issued access
token validates with expected type "access" and yields subject "1", but
the issued refresh token - signed with the refresh secret, presented with
the Bearer scheme before its expiry - is rejected as invalid when
validated with expected type "refresh", because `get_current_user`
always verifies against `access_token_secret`. -/
theorem C3_refresh_token_never_validates :
    exCfg.access_token_secret ≠ exCfg.refresh_token_secret ∧
    exCfg.access_token_expires ≠ exCfg.refresh_token_expires ∧
    exPair.access_token.secret = exCfg.access_token_secret ∧
    exPair.refresh_token.secret = exCfg.refresh_token_secret ∧
    exPair.access_token.claims.typ = "access" ∧
    exPair.refresh_token.claims.typ = "refresh" ∧
    1 < exPair.access_token.claims.exp ∧
    1 < exPair.refresh_token.claims.exp ∧
    get_current_user exCfg "access" (some ("Bearer", exPair.access_token)) 1 =
      .ok { sub := "1" } ∧
    get_current_user exCfg "refresh" (some ("Bearer", exPair.refresh_token)) 1 =
      .error .invalidToken := by
  decide

/-- C8 counterexample: `get_all_users` has no `ORDER BY`, so with two live
users and `limit 1, offset 0` two different result sequences are both
admissible executions of the same query over the same dataset - the result
is not deterministic. -/
theorem C8_pagination_not_deterministic :
    get_all_users_result exUsersStore 1 0 [readUserDtoOf exU1] ∧
    get_all_users_result exUsersStore 1 0 [readUserDtoOf exU2] ∧
    [readUserDtoOf exU1] ≠ [readUserDtoOf exU2] := by
  refine ⟨⟨[exU1, exU2], by decide, by decide⟩,
          ⟨[exU2, exU1], by decide, by decide⟩, by decide⟩

/-- C8 (amended): every admissible result of `get_all_users` lists only
live (not soft-deleted) users, each entry being the projection of a live
row; the order of the sequence, though, is not determined by the query. -/
theorem C8_amended_live_users_only (st : Store) (limit offset : Nat)
    (res : List ReadUserDto) (h : get_all_users_result st limit offset res) :
    ∀ d ∈ res, ∃ u ∈ st.users, u.deleted_at = none ∧ d = readUserDtoOf u := by
  obtain ⟨l, hperm, rfl⟩ := h
  intro d hd
  obtain ⟨u, hu, rfl⟩ := List.mem_map.mp hd
  have hul : u ∈ l := List.mem_of_mem_drop (List.mem_of_mem_take hu)
  have hlive : u ∈ liveUsers st := hperm.mem_iff.mp hul
  obtain ⟨hmem, hbeq⟩ := List.mem_filter.mp hlive
  exact ⟨u, hmem, by simpa using hbeq, rfl⟩

/-- C8 witness: the amended theorem applied to one admissible page of the
concrete two-user dataset. -/
theorem C8_amended_live_users_only_witness :
    ∃ u ∈ exUsersStore.users, u.deleted_at = none ∧
      readUserDtoOf exU1 = readUserDtoOf u :=
  C8_amended_live_users_only exUsersStore 1 0 [readUserDtoOf exU1]
    ⟨[exU1, exU2], by decide, by decide⟩ (readUserDtoOf exU1) (by decide)

/-- C5: for a `(post, user)` pair with both rows present and no prior
interaction, a first `like_post` succeeds and a second one fails with
`PostAlreadyLikedError`; `dislike_post` never fails (removing an absent
like included) and removes the edge completely, so that a further
`like_post` succeeds again; by contrast a repeated `view_post` on the
same pair is a hard `PostAlreadyViewedError`. -/
theorem C5_like_dislike_view_asymmetry (st : Store) (pid uid : Nat)
    (hl : (pid, uid) ∉ st.likes) (hv : (pid, uid) ∉ st.views)
    (hp : ∃ p ∈ st.posts, p.id = pid) (hu : ∃ u ∈ st.users, u.id = uid) :
    (∃ st1, like_post st pid uid = .ok st1 ∧
        like_post st1 pid uid = .error .alreadyLiked ∧
        dislike_post st1 pid uid = .ok st ∧
        (like_post st pid uid).isOk = true) ∧
    (∀ s : Store, (dislike_post s pid uid).isOk = true) ∧
    (∃ sv, view_post st pid uid = .ok sv ∧
        view_post sv pid uid = .error .alreadyViewed) := by
  have hcl : st.likes.contains (pid, uid) = false := contains_eq_false_of_not_mem hl
  have hcv : st.views.contains (pid, uid) = false := contains_eq_false_of_not_mem hv
  have hpf : (st.posts.find? (fun p => p.id == pid)).isNone = false := by
    rw [Bool.eq_false_iff]
    intro hc
    exact (posts_find_eq_none_iff st pid).mp (Option.isNone_iff_eq_none.mp hc) hp
  have huf : (st.users.find? (fun u => u.id == uid)).isNone = false := by
    rw [Bool.eq_false_iff]
    intro hc
    exact (users_find_eq_none_iff st uid).mp (Option.isNone_iff_eq_none.mp hc) hu
  have hfirst : like_post st pid uid = .ok { st with likes := st.likes ++ [(pid, uid)] } := by
    simp [like_post, hcl, hl, hpf, huf]
  have hfilter : (st.likes ++ [(pid, uid)]).filter
      (fun e => !(e.1 == pid && e.2 == uid)) = st.likes := by
    rw [List.filter_append]
    have h1 : st.likes.filter (fun e => !(e.1 == pid && e.2 == uid)) = st.likes := by
      refine List.filter_eq_self.mpr (fun a ha => ?_)
      simp only [Bool.not_eq_true']
      rw [Bool.eq_false_iff]
      intro hc
      obtain ⟨h1, h2⟩ := Bool.and_eq_true _ _ ▸ hc
      have ha1 : a.1 = pid := by simpa using h1
      have ha2 : a.2 = uid := by simpa using h2
      have : a = (pid, uid) := by
        calc a = (a.1, a.2) := rfl
          _ = (pid, uid) := by rw [ha1, ha2]
      exact hl (this ▸ ha)
    have h2 : ([(pid, uid)] : List (Nat × Nat)).filter
        (fun e => !(e.1 == pid && e.2 == uid)) = [] := by simp
    rw [h1, h2, List.append_nil]
  refine ⟨⟨{ st with likes := st.likes ++ [(pid, uid)] }, hfirst, ?_, ?_, ?_⟩,
          fun s => rfl, ?_⟩
  · have hc2 : ({ st with likes := st.likes ++ [(pid, uid)] } : Store).likes.contains
        (pid, uid) = true := contains_eq_true_of_mem (by simp)
    simp [like_post, hc2]
  · show Except.ok _ = Except.ok st
    rw [hfilter]
  · rw [hfirst]
    rfl
  · refine ⟨{ st with views := st.views ++ [(pid, uid)] }, ?_, ?_⟩
    · simp [view_post, hcv, hv, hpf, huf]
    · have hc2 : ({ st with views := st.views ++ [(pid, uid)] } : Store).views.contains
          (pid, uid) = true := contains_eq_true_of_mem (by simp)
      simp [view_post, hc2]

/-- C5 witness: the like/dislike/view cycle at the concrete one-post
dataset (whose single post is soft-deleted, which does not matter here). -/
theorem C5_like_dislike_view_asymmetry_witness :
    (∃ st1, like_post exLikeStore 1 2 = .ok st1 ∧
        like_post st1 1 2 = .error .alreadyLiked ∧
        dislike_post st1 1 2 = .ok exLikeStore ∧
        (like_post exLikeStore 1 2).isOk = true) ∧
    (∃ sv, view_post exLikeStore 1 2 = .ok sv ∧
        view_post sv 1 2 = .error .alreadyViewed) := by
  have h := C5_like_dislike_view_asymmetry exLikeStore 1 2 (by decide) (by decide)
    (by decide) (by decide)
  exact ⟨h.1, h.2.2⟩

/-- C10: when the pair has no prior interaction, `like_post` and
`view_post` succeed exactly when the referenced post row and user row are
both present in the store - the post's `deleted_at` plays no role - and
fail with the repository's referential error ("User or post not found")
exactly when one of the two rows is entirely absent. -/
theorem C10_interactions_ignore_liveness (st : Store) (pid uid : Nat)
    (hl : (pid, uid) ∉ st.likes) (hv : (pid, uid) ∉ st.views) :
    ((like_post st pid uid).isOk = true ↔
        ((∃ p ∈ st.posts, p.id = pid) ∧ (∃ u ∈ st.users, u.id = uid))) ∧
    (like_post st pid uid = .error .repositoryError ↔
        ¬ ((∃ p ∈ st.posts, p.id = pid) ∧ (∃ u ∈ st.users, u.id = uid))) ∧
    ((view_post st pid uid).isOk = true ↔
        ((∃ p ∈ st.posts, p.id = pid) ∧ (∃ u ∈ st.users, u.id = uid))) ∧
    (view_post st pid uid = .error .repositoryError ↔
        ¬ ((∃ p ∈ st.posts, p.id = pid) ∧ (∃ u ∈ st.users, u.id = uid))) := by
  have hcl : st.likes.contains (pid, uid) = false := contains_eq_false_of_not_mem hl
  have hcv : st.views.contains (pid, uid) = false := contains_eq_false_of_not_mem hv
  cases hpf : st.posts.find? (fun p => p.id == pid) with
  | none =>
    have hnp : ¬ ∃ p ∈ st.posts, p.id = pid := (posts_find_eq_none_iff st pid).mp hpf
    refine ⟨?_, ?_, ?_, ?_⟩ <;>
      simp [like_post, view_post, hcl, hcv, hl, hv, hpf, hnp, Except.isOk, Except.toBool]
  | some p0 =>
    have hA : ∃ p ∈ st.posts, p.id = pid :=
      ⟨p0, List.mem_of_find?_eq_some hpf, by simpa using List.find?_some hpf⟩
    cases huf : st.users.find? (fun u => u.id == uid) with
    | none =>
      have hnu : ¬ ∃ u ∈ st.users, u.id = uid := (users_find_eq_none_iff st uid).mp huf
      refine ⟨?_, ?_, ?_, ?_⟩ <;>
        simp [like_post, view_post, hcl, hcv, hl, hv, hpf, huf, hnu, Except.isOk, Except.toBool]
    | some u0 =>
      have hB : ∃ u ∈ st.users, u.id = uid :=
        ⟨u0, List.mem_of_find?_eq_some huf, by simpa using List.find?_some huf⟩
      refine ⟨?_, ?_, ?_, ?_⟩ <;>
        simp [like_post, view_post, hcl, hcv, hl, hv, hpf, huf, hA, hB, Except.isOk, Except.toBool]

/-- C10 witness: on the dataset whose only post is soft-deleted (but whose
row is present, as is the user's), both interactions succeed; after
removing the post row entirely, both fail with the referential repository
error. -/
theorem C10_interactions_ignore_liveness_witness :
    (like_post exLikeStore 1 2).isOk = true ∧
    (view_post exLikeStore 1 2).isOk = true ∧
    like_post { exLikeStore with posts := [] } 1 2 = .error .repositoryError ∧
    view_post { exLikeStore with posts := [] } 1 2 = .error .repositoryError := by
  have h1 := C10_interactions_ignore_liveness exLikeStore 1 2 (by decide) (by decide)
  have h2 := C10_interactions_ignore_liveness { exLikeStore with posts := [] } 1 2
    (by decide) (by decide)
  refine ⟨h1.1.mpr ⟨by decide, by decide⟩, h1.2.2.1.mpr ⟨by decide, by decide⟩,
          h2.2.1.mpr ?_, h2.2.2.2.mpr ?_⟩ <;>
    · rintro ⟨⟨p, hp, -⟩, -⟩
      simp at hp

/-- Paging (offset/limit) yields a sublist of the ordered rows. -/
theorem getAllPostsRows_sublist_sorted (st : Store) (dto : FilterPostDto) :
    (getAllPostsRows st dto).Sublist (feedSorted st dto) := by
  cases h : dto.limit with
  | none =>
    simp only [getAllPostsRows, h]
    exact List.drop_sublist _ _
  | some n =>
    simp only [getAllPostsRows, h]
    exact (List.take_sublist _ _).trans (List.drop_sublist _ _)

/-- In the reply branch the ordered rows are ascending by creation time. -/
theorem feedSorted_asc (st : Store) (dto : FilterPostDto)
    (h : dto.reply_to_id ≠ none) :
    (feedSorted st dto).Pairwise (fun a b => a.created_at ≤ b.created_at) := by
  haveI : IsTotal FeedRow (fun a b => a.created_at ≤ b.created_at) :=
    ⟨fun a b => Nat.le_total _ _⟩
  haveI : IsTrans FeedRow (fun a b => a.created_at ≤ b.created_at) :=
    ⟨fun _ _ _ hab hbc => le_trans hab hbc⟩
  obtain ⟨r, hr⟩ := Option.ne_none_iff_exists.mp h
  simp only [feedSorted, ← hr]
  exact List.sorted_insertionSort _ _

/-- In the top-level branch the ordered rows are descending by creation
time. -/
theorem feedSorted_desc (st : Store) (dto : FilterPostDto)
    (h : dto.reply_to_id = none) :
    (feedSorted st dto).Pairwise (fun a b => b.created_at ≤ a.created_at) := by
  haveI : IsTotal FeedRow (fun a b : FeedRow => b.created_at ≤ a.created_at) :=
    ⟨fun a b => (Nat.le_total _ _).symm⟩
  haveI : IsTrans FeedRow (fun a b : FeedRow => b.created_at ≤ a.created_at) :=
    ⟨fun _ _ _ hab hbc => le_trans hbc hab⟩
  simp only [feedSorted, h]
  exact List.sorted_insertionSort _ _

/-- Ordering permutes the joined rows, so membership is unchanged. -/
theorem mem_feedSorted_iff (st : Store) (dto : FilterPostDto) (row : FeedRow) :
    row ∈ feedSorted st dto ↔ row ∈ feedJoined st dto := by
  cases h : dto.reply_to_id <;> simp only [feedSorted, h] <;>
    exact (List.perm_insertionSort _ _).mem_iff

/-- Characterisation of the joined rows: exactly the filtered posts paired
with their (first) author row. -/
theorem mem_feedJoined_iff (st : Store) (dto : FilterPostDto) (row : FeedRow) :
    row ∈ feedJoined st dto ↔
      ∃ p ∈ st.posts, feedWhere dto p = true ∧
        ∃ u, st.users.find? (fun v => v.id == p.user_id) = some u ∧
          row = feedRowOf st dto.user_id p u := by
  unfold feedJoined
  rw [List.mem_filterMap]
  constructor
  · rintro ⟨p, hp, hif⟩
    cases hw : feedWhere dto p with
    | false => rw [hw] at hif; simp at hif
    | true =>
      rw [hw] at hif
      simp only [if_true] at hif
      obtain ⟨u, hfind, heq⟩ := Option.map_eq_some'.mp (by simpa using hif)
      exact ⟨p, hp, hw, u, hfind, heq.symm⟩
  · rintro ⟨p, hp, hw, u, hfind, rfl⟩
    exact ⟨p, hp, by simp [hw, hfind]⟩

/-- A filtered post with an existing author contributes a row (with its
id) to the join. -/
theorem feedJoined_complete (st : Store) (dto : FilterPostDto) (p : PostRow)
    (hp : p ∈ st.posts) (hw : feedWhere dto p = true)
    (hu : ∃ u ∈ st.users, u.id = p.user_id) :
    ∃ row ∈ feedJoined st dto, row.id = p.id := by
  have hsome : (st.users.find? (fun v => v.id == p.user_id)).isSome = true := by
    refine List.find?_isSome.mpr ?_
    obtain ⟨u, hu1, hu2⟩ := hu
    exact ⟨u, hu1, by simp [hu2]⟩
  obtain ⟨u, hfind⟩ := Option.isSome_iff_exists.mp hsome
  exact ⟨feedRowOf st dto.user_id p u,
         (mem_feedJoined_iff st dto _).mpr ⟨p, hp, hw, u, hfind, rfl⟩, rfl⟩

/-- The `WHERE` clause in propositional form: liveness, the optional
case-insensitive search, the optional owner restriction, and the
threading branch (which coincides with `reply_to_id` agreement in both
branches). -/
theorem feedWhere_eq_true_iff (dto : FilterPostDto) (p : PostRow) :
    feedWhere dto p = true ↔
      (p.deleted_at = none ∧
       (∀ s, dto.search = some s → searchMatches p.text s = true) ∧
       (∀ o, dto.owner_id = some o → p.user_id = o) ∧
       p.reply_to_id = dto.reply_to_id) := by
  unfold feedWhere
  cases hs : dto.search <;> cases ho : dto.owner_id <;> cases hr : dto.reply_to_id <;>
    simp [Bool.and_eq_true, and_assoc]


/-- C6: under the live-username uniqueness invariant, `login` fails with
the repository's not-found error exactly when no live user carries the
requested username (so the lookup decides not-found before any password
check), and for an existing live user whose stored hash does not verify
the supplied password it fails with `WrongPasswordError`, never
not-found. -/
theorem C6_login_error_order (st : Store) (cfg : Config) (dto : LoginUserDto)
    (now : Nat)
    (huniq : ∀ u ∈ st.users, ∀ v ∈ st.users, u.deleted_at = none →
       v.deleted_at = none → u.user_name = dto.user_name →
       v.user_name = dto.user_name → u = v) :
    (login st cfg dto now = .error (.userError .notFound) ↔
       ¬ ∃ u ∈ st.users, u.user_name = dto.user_name ∧ u.deleted_at = none) ∧
    (∀ u ∈ st.users, u.user_name = dto.user_name → u.deleted_at = none →
       checkpw dto.password u.password_hash = false →
       login st cfg dto now = .error .wrongPassword) := by
  cases hfind : st.users.find?
      (fun u => u.user_name == dto.user_name && u.deleted_at == none) with
  | none =>
    have hnone : ¬ ∃ u ∈ st.users, u.user_name = dto.user_name ∧ u.deleted_at = none := by
      rintro ⟨u, hu, hn, hd⟩
      have := List.find?_eq_none.mp hfind u hu
      simp [hn, hd] at this
    constructor
    · simp only [login, get_user_by_username, hfind]
      exact ⟨fun _ => hnone, fun _ => by trivial⟩
    · intro u hu hn hd _
      exact absurd ⟨u, hu, hn, hd⟩ hnone
  | some u0 =>
    have hmem : u0 ∈ st.users := List.mem_of_find?_eq_some hfind
    have hprops := List.find?_some hfind
    have hname : u0.user_name = dto.user_name := by
      have := (Bool.and_eq_true _ _ ▸ hprops).1
      simpa using this
    have hlive : u0.deleted_at = none := by
      have := (Bool.and_eq_true _ _ ▸ hprops).2
      simpa using this
    constructor
    · constructor
      · intro hlog
        exfalso
        simp only [login, get_user_by_username, hfind] at hlog
        cases hck : checkpw dto.password u0.password_hash <;> simp [hck] at hlog
      · intro hno
        exact absurd ⟨u0, hmem, hname, hlive⟩ hno
    · intro u hu hn hd hck
      have : u = u0 := huniq u hu u0 hmem hd hlive hn hname
      subst this
      simp [login, get_user_by_username, hfind, hck]

/-- C6 witness: the concrete single-user dataset: a wrong password for
`alice` yields `WrongPasswordError`, an unknown username yields
not-found. -/
theorem C6_login_error_order_witness :
    login exLoginStore exCfg { user_name := "alice", password := "nope" } 0 =
      .error .wrongPassword ∧
    login exLoginStore exCfg { user_name := "bob", password := "pw1!a" } 0 =
      .error (.userError .notFound) := by
  have h1 := C6_login_error_order exLoginStore exCfg
    { user_name := "alice", password := "nope" } 0 (by decide)
  have h2 := C6_login_error_order exLoginStore exCfg
    { user_name := "bob", password := "pw1!a" } 0 (by decide)
  refine ⟨?_, h2.1.mpr (by decide)⟩
  exact h1.2 exAlice (by decide) rfl rfl (by decide)

/-- C7: when an update supplies a new password, the dto delegated to the
user repository carries `password = none` and `password_confirm = none`
and only the salted bcrypt digest in `password_hash`; verification of the
original plaintext against that digest succeeds; and every live row with
the target id in the resulting store holds exactly that digest (which
still verifies the original plaintext) - no plaintext is persisted. -/
theorem C7_update_never_persists_plaintext (dto : UpdateUserDto) (p : String)
    (salt : Nat) (hp : dto.password = some p) :
    (prepareUpdate dto salt).password = none ∧
    (prepareUpdate dto salt).password_confirm = none ∧
    (prepareUpdate dto salt).password_hash = some (hashpw p salt) ∧
    checkpw p (hashpw p salt) = true ∧
    (∀ st uid now, user_service_update st uid dto salt now =
        update_user st uid (prepareUpdate dto salt) now) ∧
    (∀ st uid now st2 r, user_service_update st uid dto salt now = .ok (st2, r) →
       ∀ u ∈ st2.users, u.id = uid → u.deleted_at = none →
         u.password_hash = hashpw p salt ∧ checkpw p u.password_hash = true) := by
  have hprep : prepareUpdate dto salt =
      { dto with password_hash := some (hashpw p salt),
                 password := none, password_confirm := none } := by
    simp [prepareUpdate, hp]
  refine ⟨by rw [hprep], by rw [hprep], by rw [hprep], by simp [checkpw, hashpw],
          fun st uid now => rfl, ?_⟩
  intro st uid now st2 r hok u hu hid hlive
  simp only [user_service_update, update_user] at hok
  cases hfind : st.users.find? (fun w => w.id == uid && w.deleted_at == none) with
  | none => rw [hfind] at hok; exact absurd hok (by simp)
  | some w0 =>
    rw [hfind] at hok
    have hst2 : st2 = { st with users := st.users.map (fun w =>
        if w.id == uid && w.deleted_at == none then
          applySetClause (prepareUpdate dto salt) now w
        else w) } := by
      have := Except.ok.inj hok
      exact (congrArg Prod.fst this).symm
    subst hst2
    obtain ⟨w, hw, hweq⟩ := List.mem_map.mp hu
    cases hcond : (w.id == uid && w.deleted_at == none) with
    | true =>
      rw [hcond] at hweq
      simp only [if_true] at hweq
      have hhash : u.password_hash = hashpw p salt := by
        rw [← hweq]
        simp [applySetClause, hprep]
      exact ⟨hhash, by simp [hhash, checkpw, hashpw]⟩
    | false =>
      rw [hcond] at hweq
      simp at hweq
      exfalso
      rw [← hweq] at hid hlive
      simp [hid, hlive] at hcond

/-- C7 witness: the concrete update dto carrying a new password, prepared
with salt 7. -/
theorem C7_update_never_persists_plaintext_witness :
    (prepareUpdate exUpdDto 7).password = none ∧
    (prepareUpdate exUpdDto 7).password_confirm = none ∧
    (prepareUpdate exUpdDto 7).password_hash = some (hashpw "newpw1!" 7) ∧
    checkpw "newpw1!" (hashpw "newpw1!" 7) = true := by
  have h := C7_update_never_persists_plaintext exUpdDto "newpw1!" 7 rfl
  exact ⟨h.1, h.2.1, h.2.2.1, h.2.2.2.1⟩

/-- C4: with unique post ids, `delete_post` fails with `PostNotFoundError`
exactly in the three indistinguishable cases (no post with the id, the
post belongs to a different owner, the post is already soft-deleted); on
failure the soft-delete row transformation touches no row; deleting one's
own live post succeeds, marks exactly that post deleted (leaving all
other posts in place and the table length unchanged), and a second delete
of the same post by the same owner fails with `PostNotFoundError`. -/
theorem C4_delete_post_owner_scoped (st : Store) (pid oid now : Nat)
    (hid : (st.posts.map (fun p => p.id)).Nodup) :
    (delete_post st pid oid now = .error .notFound ↔
       ((∀ p ∈ st.posts, p.id ≠ pid) ∨
        (∃ p ∈ st.posts, p.id = pid ∧ p.user_id ≠ oid) ∨
        (∃ p ∈ st.posts, p.id = pid ∧ p.deleted_at ≠ none))) ∧
    (delete_post st pid oid now = .error .notFound →
       st.posts.map (softDeleteMark pid oid now) = st.posts) ∧
    (∀ p ∈ st.posts, p.id = pid → p.user_id = oid → p.deleted_at = none →
       ∃ st2, delete_post st pid oid now = .ok st2 ∧
         { p with deleted_at := some now } ∈ st2.posts ∧
         (∀ q ∈ st.posts, q.id ≠ pid → q ∈ st2.posts) ∧
         st2.posts.length = st.posts.length ∧
         ∀ now2, delete_post st2 pid oid now2 = .error .notFound) := by
  have predIff : ∀ q : PostRow,
      (q.id == pid && q.user_id == oid && q.deleted_at == none) = true ↔
      (q.id = pid ∧ q.user_id = oid ∧ q.deleted_at = none) := by
    intro q
    simp [Bool.and_eq_true, and_assoc]
  have hkey : delete_post st pid oid now = .error .notFound ↔
      ∀ q ∈ st.posts, ¬ (q.id = pid ∧ q.user_id = oid ∧ q.deleted_at = none) := by
    by_cases hc : (st.posts.filter
        (fun q => q.id == pid && q.user_id == oid && q.deleted_at == none)).length = 0
    · have hnil := List.length_eq_zero.mp hc
      have hall := List.filter_eq_nil_iff.mp hnil
      constructor
      · intro _ q hq hqp
        exact hall q hq ((predIff q).mpr hqp)
      · intro _
        simp [delete_post, hc]
    · constructor
      · intro herr
        exact absurd herr (by simp [delete_post, hc])
      · intro hall
        exfalso
        apply hc
        rw [List.length_eq_zero, List.filter_eq_nil_iff]
        intro q hq hqb
        exact hall q hq ((predIff q).mp hqb)
  refine ⟨?_, ?_, ?_⟩
  · rw [hkey]
    constructor
    · intro hall
      by_cases hex : ∃ p ∈ st.posts, p.id = pid
      · obtain ⟨p0, hp0, hpe⟩ := hex
        have := hall p0 hp0
        rw [not_and, not_and] at this
        by_cases hown : p0.user_id = oid
        · exact .inr (.inr ⟨p0, hp0, hpe, this hpe hown⟩)
        · exact .inr (.inl ⟨p0, hp0, hpe, hown⟩)
      · push_neg at hex
        exact .inl hex
    · rintro (hall | ⟨q, hq, hqe, hqo⟩ | ⟨q, hq, hqe, hqd⟩) p hp ⟨h1, h2, h3⟩
      · exact hall p hp h1
      · have : q = p := List.inj_on_of_nodup_map hid hq hp (hqe.trans h1.symm)
        subst this
        exact hqo h2
      · have : q = p := List.inj_on_of_nodup_map hid hq hp (hqe.trans h1.symm)
        subst this
        exact hqd h3
  · intro herr
    have hall := hkey.mp herr
    refine (List.map_congr_left (fun q hq => ?_)).trans (List.map_id st.posts)
    have : ¬ (q.id = pid ∧ q.user_id = oid ∧ q.deleted_at = none) := hall q hq
    unfold softDeleteMark
    rw [if_neg]
    · rfl
    · intro hb
      exact this ((predIff q).mp hb)
  · intro p hp h1 h2 h3
    have hpred : (p.id == pid && p.user_id == oid && p.deleted_at == none) = true :=
      (predIff p).mpr ⟨h1, h2, h3⟩
    have hmemf : p ∈ st.posts.filter
        (fun q => q.id == pid && q.user_id == oid && q.deleted_at == none) :=
      List.mem_filter.mpr ⟨hp, hpred⟩
    have hlen : ¬ (st.posts.filter
        (fun q => q.id == pid && q.user_id == oid && q.deleted_at == none)).length = 0 := by
      intro h0
      rw [List.length_eq_zero] at h0
      rw [h0] at hmemf
      exact absurd hmemf (List.not_mem_nil p)
    refine ⟨{ st with posts := st.posts.map (softDeleteMark pid oid now) },
            by simp [delete_post, hlen], ?_, ?_, List.length_map _ _, ?_⟩
    · exact List.mem_map.mpr ⟨p, hp, by simp [softDeleteMark, hpred]⟩
    · intro q hq hqid
      refine List.mem_map.mpr ⟨q, hq, ?_⟩
      unfold softDeleteMark
      rw [if_neg]
      intro hb
      exact hqid ((predIff q).mp hb).1
    · intro now2
      have hempty : ((st.posts.map (softDeleteMark pid oid now)).filter
          (fun q => q.id == pid && q.user_id == oid && q.deleted_at == none)).length = 0 := by
        rw [List.length_eq_zero, List.filter_eq_nil_iff]
        intro w hw
        obtain ⟨q, hq, hqw⟩ := List.mem_map.mp hw
        intro hwb
        obtain ⟨hw1, hw2, hw3⟩ := (predIff w).mp hwb
        subst hqw
        unfold softDeleteMark at hw1 hw2 hw3
        by_cases hqc : (q.id == pid && q.user_id == oid && q.deleted_at == none) = true
        · rw [if_pos hqc] at hw3
          exact absurd hw3 (by simp)
        · rw [if_neg hqc] at hw1 hw2 hw3
          exact hqc ((predIff q).mpr ⟨hw1, hw2, hw3⟩)
      simp [delete_post, hempty]

/-- C4 witness: in the concrete dataset, deleting someone else's post and a
soft-deleted post fail with not-found, while deleting one's own live post
succeeds exactly once. -/
theorem C4_delete_post_owner_scoped_witness :
    delete_post exDelStore 2 1 9 = .error .notFound ∧
    delete_post exDelStore 3 1 9 = .error .notFound ∧
    ∃ st2, delete_post exDelStore 1 1 9 = .ok st2 ∧
      ∀ now2, delete_post st2 1 1 now2 = .error .notFound := by
  have h2 := C4_delete_post_owner_scoped exDelStore 2 1 9 (by decide)
  have h3 := C4_delete_post_owner_scoped exDelStore 3 1 9 (by decide)
  have h1 := C4_delete_post_owner_scoped exDelStore 1 1 9 (by decide)
  refine ⟨?_, ?_, ?_⟩
  · exact h2.1.mpr (.inr (.inl ⟨exDelTheirs, by decide, rfl, by decide⟩))
  · exact h3.1.mpr (.inr (.inr ⟨exDelGone, by decide, rfl, by decide⟩))
  · obtain ⟨st2, hok, -, -, -, hagain⟩ := h1.2.2 exDelMine (by decide) rfl rfl rfl
    exact ⟨st2, hok, hagain⟩

/-- C9: each feed row's aggregates are the counts over the whole likes,
views and posts relations (soft-deleting any set of posts, or any set of
users, changes no count - only the row's own post must be live to appear
at all); concretely, the soft-deleted reply of the example dataset still
counts towards its live parent's `replies_count`. -/
theorem C9_aggregates_ignore_soft_deletion (st : Store) (S : List Nat) (t : Nat)
    (dto : FilterPostDto) (pid : Nat) :
    (∀ row ∈ getAllPostsRows st dto,
        row.likes_count = likesCount st row.id ∧
        row.views_count = viewsCount st row.id ∧
        row.replies_count = repliesCount st row.id) ∧
    likesCount (markPostsDeleted st S t) pid = likesCount st pid ∧
    viewsCount (markPostsDeleted st S t) pid = viewsCount st pid ∧
    repliesCount (markPostsDeleted st S t) pid = repliesCount st pid ∧
    likesCount (markUsersDeleted st S t) pid = likesCount st pid ∧
    viewsCount (markUsersDeleted st S t) pid = viewsCount st pid ∧
    repliesCount (markUsersDeleted st S t) pid = repliesCount st pid ∧
    (getPostByIdRow exC2Reply 1 2).map (fun r => r.replies_count) = some 1 := by
  refine ⟨?_, rfl, rfl, ?_, rfl, rfl, rfl, by decide⟩
  · intro row hrow
    have hmem : row ∈ feedJoined st dto :=
      (mem_feedSorted_iff st dto row).mp
        ((getAllPostsRows_sublist_sorted st dto).subset hrow)
    obtain ⟨p, hp, hw, u, hfind, rfl⟩ := (mem_feedJoined_iff st dto row).mp hmem
    exact ⟨rfl, rfl, rfl⟩
  · show ((st.posts.map _).filter _).length = _
    rw [List.filter_map, List.length_map]
    congr 1
    apply List.filter_congr
    intro q hq
    show ((if S.contains q.id then { q with deleted_at := some t } else q).reply_to_id
        == some pid) = (q.reply_to_id == some pid)
    cases hqc : S.contains q.id <;> simp [hqc]

/-- C9 witness: the aggregate-field identities at a concrete returned row,
and the invariance of a live parent's reply count under soft-deleting its
reply. -/
theorem C9_aggregates_ignore_soft_deletion_witness :
    (feedRowOf exFeedStore (some 9) exPostB exAuthor).replies_count =
      repliesCount exFeedStore (feedRowOf exFeedStore (some 9) exPostB exAuthor).id ∧
    repliesCount (markPostsDeleted exC2Reply [3] 9) 1 = repliesCount exC2Reply 1 := by
  have h0 := C9_aggregates_ignore_soft_deletion exFeedStore [] 0 exTopDto 1
  have h := C9_aggregates_ignore_soft_deletion exC2Reply [3] 9 exTopDto 1
  exact ⟨(h0.1 (feedRowOf exFeedStore (some 9) exPostB exAuthor) (by decide)).2.2,
         h.2.2.2.1⟩

/-- C1: the threading rule of the feed query.  In the reply branch
(`reply_to_id` supplied) the result is ascending by creation time, in the
top-level branch descending; every returned row is a live post of the
selected branch that passes the search and owner filters, joined with its
author; conversely (with no paging) every such post contributes a row;
`offset` and `limit` page the branch result; and on the spec's three-post
example the top-level listing is `[B, A]` and the reply listing for A is
`[C]`. -/
theorem C1_feed_threading_and_ordering (st : Store) (dto : FilterPostDto) :
    (dto.reply_to_id ≠ none →
      (getAllPostsRows st dto).Pairwise (fun a b => a.created_at ≤ b.created_at)) ∧
    (dto.reply_to_id = none →
      (getAllPostsRows st dto).Pairwise (fun a b => b.created_at ≤ a.created_at)) ∧
    (∀ row ∈ getAllPostsRows st dto, ∃ p ∈ st.posts, ∃ u ∈ st.users,
        u.id = p.user_id ∧ row = feedRowOf st dto.user_id p u ∧ row.id = p.id ∧
        p.deleted_at = none ∧ p.reply_to_id = dto.reply_to_id ∧
        (∀ s, dto.search = some s → searchMatches p.text s = true) ∧
        (∀ o, dto.owner_id = some o → p.user_id = o)) ∧
    (dto.offset.getD 0 = 0 → dto.limit = none →
      ∀ p ∈ st.posts, p.deleted_at = none → p.reply_to_id = dto.reply_to_id →
        (∀ s, dto.search = some s → searchMatches p.text s = true) →
        (∀ o, dto.owner_id = some o → p.user_id = o) →
        (∃ u ∈ st.users, u.id = p.user_id) →
        ∃ row ∈ getAllPostsRows st dto, row.id = p.id) ∧
    (∀ n, dto.limit = some n →
      getAllPostsRows st dto =
        ((getAllPostsRows st { dto with offset := some 0, limit := none }).drop
          (dto.offset.getD 0)).take n) ∧
    (dto.limit = none →
      getAllPostsRows st dto =
        (getAllPostsRows st { dto with offset := some 0, limit := none }).drop
          (dto.offset.getD 0)) ∧
    (getAllPostsRows exFeedStore exTopDto).map (fun r => r.id) = [2, 1] ∧
    (getAllPostsRows exFeedStore exReplyDto).map (fun r => r.id) = [3] := by
  refine ⟨?_, ?_, ?_, ?_, ?_, ?_, by decide, by decide⟩
  · intro h
    exact List.Pairwise.sublist (getAllPostsRows_sublist_sorted st dto)
      (feedSorted_asc st dto h)
  · intro h
    exact List.Pairwise.sublist (getAllPostsRows_sublist_sorted st dto)
      (feedSorted_desc st dto h)
  · intro row hrow
    have hmem : row ∈ feedJoined st dto :=
      (mem_feedSorted_iff st dto row).mp
        ((getAllPostsRows_sublist_sorted st dto).subset hrow)
    obtain ⟨p, hp, hw, u, hfind, rfl⟩ := (mem_feedJoined_iff st dto row).mp hmem
    obtain ⟨hdel, hsearch, howner, hreply⟩ := (feedWhere_eq_true_iff dto p).mp hw
    have huid : u.id = p.user_id := by simpa using List.find?_some hfind
    exact ⟨p, hp, u, List.mem_of_find?_eq_some hfind, huid, rfl, rfl,
           hdel, hreply, hsearch, howner⟩
  · intro hoff hlim p hp hdel hrep hsearch howner hu
    have hw : feedWhere dto p = true :=
      (feedWhere_eq_true_iff dto p).mpr ⟨hdel, hsearch, howner, hrep⟩
    obtain ⟨row, hrowj, hrid⟩ := feedJoined_complete st dto p hp hw hu
    have hall : getAllPostsRows st dto = feedSorted st dto := by
      simp only [getAllPostsRows, hlim]
      rw [hoff, List.drop_zero]
    exact ⟨row, hall ▸ ((mem_feedSorted_iff st dto row).mpr hrowj), hrid⟩
  · intro n hlim
    simp only [getAllPostsRows, hlim]
    rfl
  · intro hlim
    simp only [getAllPostsRows, hlim]
    rfl

/-- C1 witness: the theorem at the concrete example dataset - the reply
branch is ascending, the top-level branch descending, and every row of
the top-level listing is a live top-level post. -/
theorem C1_feed_threading_and_ordering_witness :
    (getAllPostsRows exFeedStore exReplyDto).Pairwise
      (fun a b => a.created_at ≤ b.created_at) ∧
    (getAllPostsRows exFeedStore exTopDto).Pairwise
      (fun a b => b.created_at ≤ a.created_at) ∧
    (∃ row ∈ getAllPostsRows exFeedStore exTopAllDto, row.id = exPostB.id) := by
  have hr := C1_feed_threading_and_ordering exFeedStore exReplyDto
  have ht := C1_feed_threading_and_ordering exFeedStore exTopDto
  have ha := C1_feed_threading_and_ordering exFeedStore exTopAllDto
  refine ⟨hr.1 (by decide), ht.2.1 rfl, ?_⟩
  exact ha.2.2.2.1 rfl rfl exPostB (by decide) rfl rfl
    (fun s hs => nomatch hs) (fun o ho => nomatch ho)
    ⟨exAuthor, by decide, rfl⟩


end GopherTalk
